import Mathlib

/-!
Shallow embedding of the nutrition engine of
`backend/app/services/nutrition_engine.py`.

Python floats are modelled as exact rationals (`ℚ`): the spec and claims
speak of exact arithmetic (sums, means, products), so the embedding uses
real-number semantics for the numeric fields.  Everything the engine
receives from the outside world — network responses of the three
providers, the ML model predictions, unexpected exceptions during the
per-ingredient pipeline — is an input of the model (`EngineConfig`,
`ProviderEnv`, the `raises` argument of the aggregator), because in the
source these are produced by I/O.  Everything else is translated
statement by statement from the Python source.
-/

namespace NutritionEngine

/-- Prefix test on character lists (auxiliary for the Python `in` operator). -/
def isPrefixChars : List Char → List Char → Bool
  | [], _ => true
  | _ :: _, [] => false
  | a :: as, b :: bs => a == b && isPrefixChars as bs

/-- Substring test on character lists (auxiliary for the Python `in` operator). -/
def containsChars (needle : List Char) : List Char → Bool
  | [] => isPrefixChars needle []
  | b :: bs => isPrefixChars needle (b :: bs) || containsChars needle bs

/-- Model of the Python expression `needle in s` for strings. -/
def pyContains (needle s : String) : Bool :=
  containsChars needle.toList s.toList

/-- Model of Python `str.lower()` (the engine only lowercases ASCII
ingredient and unit names). -/
def pyLower (s : String) : String :=
  String.mk (s.toList.map Char.toLower)

/-- Model of the `NutritionData` dataclass (nutrition_engine.py lines 26-39):
nine numeric fields, a source tag and a confidence score. -/
structure NutritionData where
  calories : ℚ
  protein : ℚ
  carbohydrates : ℚ
  fat : ℚ
  fiber : ℚ
  sugar : ℚ
  sodium : ℚ
  cholesterol : ℚ
  saturated_fat : ℚ
  source : String
  confidence : ℚ
  deriving DecidableEq, Repr

/-- Model of the `IngredientNutrition` dataclass (lines 41-48), in the well-typed form it
has when constructed freshly at lines 163-169. -/
structure IngredientNutrition where
  name : String
  quantity : ℚ
  unit : String
  nutrition_per_100g : NutritionData
  total_nutrition : NutritionData
  deriving DecidableEq, Repr

/-- A Python value that is either a `NutritionData` object or a plain string.
The cache round trip (`json.dumps(..., default=str)` at line 619 followed by
`IngredientNutrition(**cached_data)` at line 137) stores the two nested
dataclasses as their `str(...)` rendering, so an `IngredientNutrition` read
back from the cache carries strings where fresh results carry records.
Python dataclasses do not check field types, so both shapes occur at runtime
and dataclass equality distinguishes them. -/
inductive PyVal where
  | nd (d : NutritionData)
  | txt (s : String)
  deriving DecidableEq, Repr

/-- The runtime shape of an `IngredientNutrition` value as seen by callers of
`get_ingredient_nutrition`: the two nutrition fields are `NutritionData`
objects on the fresh path and strings on the cache-hit path. -/
structure IngredientNutritionPy where
  name : String
  quantity : ℚ
  unit : String
  nutrition_per_100g : PyVal
  total_nutrition : PyVal
  deriving DecidableEq, Repr

/-- View of a freshly constructed resolution as a runtime value. -/
def toPy (r : IngredientNutrition) : IngredientNutritionPy :=
  ⟨r.name, r.quantity, r.unit, PyVal.nd r.nutrition_per_100g, PyVal.nd r.total_nutrition⟩

/-- Engine configuration: which API keys are set (truthy) and whether the ML
model artifacts were loaded (lines 55-71, 584-604). -/
structure EngineConfig where
  api_ninjas_key : Bool
  spoonacular_api_key : Bool
  usda_api_key : Bool
  ml_model : Bool
  deriving DecidableEq, Repr

/-- External world: the outcome of each provider helper
(`_get_api_ninjas_nutrition`, `_get_spoonacular_nutrition`,
`_get_usda_nutrition`, lines 176-337 — each returns `None` on any failure and
a populated record on success), the ML model predictions and whether the ML
predict call raises.  These helpers perform network I/O, so their outcomes
are inputs of the model. -/
structure ProviderEnv where
  api_ninjas : String → Option NutritionData
  spoonacular : String → Option NutritionData
  usda : String → Option NutritionData
  ml_predictions : String → List ℚ
  ml_raises : String → Bool

/-- The acceptance threshold, `self.confidence_threshold = 0.7` (line 66). -/
def confidence_threshold : ℚ := 0.7

/-- Category table of `_estimate_nutrition_heuristic` (lines 456-481), in
Python dict insertion order: category name, keyword patterns, fixed per-100g
profile. -/
def food_categories : List (String × List String × NutritionData) :=
  [ ("protein", ["chicken", "beef", "pork", "fish", "turkey", "lamb", "meat"],
      ⟨165, 25, 0, 7, 0, 0, 70, 55, 2.5, "estimated", 0.5⟩),
    ("dairy", ["milk", "cheese", "yogurt", "butter", "cream"],
      ⟨150, 8, 12, 8, 0, 12, 100, 25, 5, "estimated", 0.5⟩),
    ("grains", ["rice", "pasta", "bread", "flour", "oats", "quinoa"],
      ⟨130, 4, 25, 1, 2, 1, 5, 0, 0.2, "estimated", 0.5⟩),
    ("vegetables", ["carrot", "broccoli", "spinach", "tomato", "pepper", "onion"],
      ⟨25, 2, 5, 0.2, 3, 3, 10, 0, 0.1, "estimated", 0.5⟩),
    ("fruits", ["apple", "banana", "orange", "berry", "grape", "peach"],
      ⟨50, 1, 13, 0.2, 2, 10, 2, 0, 0.1, "estimated", 0.5⟩),
    ("oils", ["oil", "olive oil", "vegetable oil", "coconut oil"],
      ⟨884, 0, 0, 100, 0, 0, 0, 0, 15, "estimated", 0.5⟩) ]

/-- Model of `_estimate_nutrition_heuristic` (lines 449-489): first category (in dict
order) one of whose patterns is a substring of the lowercased name wins;
otherwise the generic fallback profile at confidence 0.3. -/
def estimate_nutrition_heuristic (ingredient_name : String) : NutritionData :=
  let ingredient_lower := pyLower ingredient_name
  match food_categories.find? (fun c => c.2.1.any (fun p => pyContains p ingredient_lower)) with
  | some c => c.2.2
  | none => ⟨100, 3, 15, 2, 1, 5, 50, 5, 0.5, "estimated", 0.3⟩

/-- Model of `_estimate_nutrition_ml` (lines 416-447): if no model is loaded, or the
predict call raises, use the heuristic; otherwise the nine predictions
clamped to ≥ 0 with source "estimated" and confidence 0.6. -/
def estimate_nutrition_ml (cfg : EngineConfig) (env : ProviderEnv) (ingredient_name : String) :
    NutritionData :=
  if !cfg.ml_model then estimate_nutrition_heuristic ingredient_name
  else if env.ml_raises ingredient_name then estimate_nutrition_heuristic ingredient_name
  else
    let p := env.ml_predictions ingredient_name
    ⟨max 0 (p.getD 0 0), max 0 (p.getD 1 0), max 0 (p.getD 2 0), max 0 (p.getD 3 0),
      max 0 (p.getD 4 0), max 0 (p.getD 5 0), max 0 (p.getD 6 0), max 0 (p.getD 7 0),
      max 0 (p.getD 8 0), "estimated", 0.6⟩

/-- Model of `_estimate_nutrition_fallback` (lines 574-582): fixed record at
confidence 0.2 constructed in the except branch of the recipe aggregator. -/
def estimate_nutrition_fallback (_ingredient_name : String) : NutritionData :=
  ⟨50, 2, 8, 1, 1, 3, 20, 0, 0.3, "fallback", 0.2⟩

/-- Which steps of the source cascade ran during one resolution. -/
structure CascadeTrace where
  api_ninjas_called : Bool
  spoonacular_called : Bool
  usda_called : Bool
  estimator_called : Bool
  deriving DecidableEq, Repr

/-- Result of the provider cascade together with its call trace. -/
structure ResolveOut where
  data : NutritionData
  trace : CascadeTrace
  deriving Repr

/-- The source cascade of `get_ingredient_nutrition` (lines 139-156),
transcribed condition by condition: each provider is called only when its key
is set and every earlier provider produced `None` (`not nutrition_data`); the
estimator replaces the result when nothing was produced or the produced
record has confidence below the threshold. -/
def get_nutrition_data (cfg : EngineConfig) (env : ProviderEnv) (ingredient_name : String) :
    ResolveOut :=
  let c1 := cfg.api_ninjas_key
  let r1 : Option NutritionData := if c1 then env.api_ninjas ingredient_name else none
  let c2 := r1.isNone && cfg.spoonacular_api_key
  let r2 := if c2 then env.spoonacular ingredient_name else r1
  let c3 := r2.isNone && cfg.usda_api_key
  let r3 := if c3 then env.usda ingredient_name else r2
  match r3 with
  | none => ⟨estimate_nutrition_ml cfg env ingredient_name, ⟨c1, c2, c3, true⟩⟩
  | some d =>
      if d.confidence < confidence_threshold then
        ⟨estimate_nutrition_ml cfg env ingredient_name, ⟨c1, c2, c3, true⟩⟩
      else ⟨d, ⟨c1, c2, c3, false⟩⟩

/-- Static unit table of `_convert_nutrition_to_quantity` (lines 497-515). -/
def unit_conversions : List (String × ℚ) :=
  [ ("g", 1), ("gram", 1), ("grams", 1), ("kg", 1000), ("kilogram", 1000),
    ("oz", 28.35), ("ounce", 28.35), ("lb", 453.59), ("pound", 453.59),
    ("cup", 240), ("tbsp", 15), ("tablespoon", 15), ("tsp", 5), ("teaspoon", 5),
    ("ml", 1), ("liter", 1000), ("l", 1000) ]

/-- Cup-weight table of `_estimate_cup_weight` (lines 552-566), in dict
insertion order. -/
def cup_weights : List (String × ℚ) :=
  [ ("flour", 120), ("sugar", 200), ("brown sugar", 213), ("butter", 227),
    ("milk", 240), ("water", 240), ("rice", 185), ("pasta", 100),
    ("breadcrumbs", 108), ("oats", 80), ("coconut", 80), ("nuts", 140),
    ("chocolate", 175) ]

/-- First-match association lookup (Python `dict.get` over the literal
tables above, whose keys are distinct except where noted in the source). -/
def lookupAssoc (l : List (String × ℚ)) (k : String) : Option ℚ :=
  (l.find? (fun p => p.1 == k)).map (fun p => p.2)

/-- Model of `_estimate_cup_weight` (lines 545-572): first staple whose name is a
substring of the lowercased ingredient name gives its cup weight, default
240 g. -/
def estimate_cup_weight (ingredient_name : String) : ℚ :=
  let ingredient_lower := pyLower ingredient_name
  match cup_weights.find? (fun p => pyContains p.1 ingredient_lower) with
  | some p => p.2
  | none => 240

/-- Grams per one unit, as computed at lines 517-523: table lookup with
default 100, then the cup special case. -/
def grams_per_unit (unit ingredient_name : String) : ℚ :=
  let unit_lower := pyLower unit
  let g := (lookupAssoc unit_conversions unit_lower).getD 100
  if unit_lower == "cup" || unit_lower == "cups" then estimate_cup_weight ingredient_name
  else g

/-- Model of `_convert_nutrition_to_quantity` (lines 491-543): multiply every numeric
field by `quantity * grams_per_unit / 100`; copy `source` and `confidence`.
No validation of `quantity` is performed anywhere in the function. -/
def convert_nutrition_to_quantity (nutrition_per_100g : NutritionData) (quantity : ℚ)
    (unit ingredient_name : String) : NutritionData :=
  let total_grams := quantity * grams_per_unit unit ingredient_name
  let multiplier := total_grams / 100
  ⟨nutrition_per_100g.calories * multiplier,
    nutrition_per_100g.protein * multiplier,
    nutrition_per_100g.carbohydrates * multiplier,
    nutrition_per_100g.fat * multiplier,
    nutrition_per_100g.fiber * multiplier,
    nutrition_per_100g.sugar * multiplier,
    nutrition_per_100g.sodium * multiplier,
    nutrition_per_100g.cholesterol * multiplier,
    nutrition_per_100g.saturated_fat * multiplier,
    nutrition_per_100g.source,
    nutrition_per_100g.confidence⟩

/-- The `str(...)` rendering of a `NutritionData` dataclass, as produced by
`json.dumps(data, default=str)` at line 619 when it meets a value it cannot
serialize.  (Numbers are rendered through `toString` on `ℚ`; the exact digit
formatting of Python floats is immaterial here — every property proved below
about cached values depends only on the stored value being a string rather
than a `NutritionData` object.) -/
def strOfNutritionData (d : NutritionData) : String :=
  "NutritionData(calories=" ++ toString d.calories ++
    ", protein=" ++ toString d.protein ++
    ", carbohydrates=" ++ toString d.carbohydrates ++
    ", fat=" ++ toString d.fat ++
    ", fiber=" ++ toString d.fiber ++
    ", sugar=" ++ toString d.sugar ++
    ", sodium=" ++ toString d.sodium ++
    ", cholesterol=" ++ toString d.cholesterol ++
    ", saturated_fat=" ++ toString d.saturated_fat ++
    ", source=" ++ d.source ++
    ", confidence=" ++ toString d.confidence ++ ")"

/-- The JSON stored in Redis for one resolution (line 619,
`json.dumps(result.__dict__, default=str)`): the plain fields serialize
natively; the two nested dataclasses are not JSON-serializable, so
`default=str` renders each as its `str(...)` string. -/
structure StoredIngredient where
  name : String
  quantity : ℚ
  unit : String
  nutrition_per_100g : String
  total_nutrition : String
  deriving DecidableEq, Repr

/-- Serialization performed by `_save_to_cache` (lines 616-621). -/
def serializeResolution (r : IngredientNutrition) : StoredIngredient :=
  ⟨r.name, r.quantity, r.unit, strOfNutritionData r.nutrition_per_100g,
    strOfNutritionData r.total_nutrition⟩

/-- Reconstruction on a cache hit (line 137,
`IngredientNutrition(**cached_data)` after `json.loads`): dataclass fields
are filled without type checks, so the two nutrition fields come back as the
stored strings. -/
def deserializeResolution (s : StoredIngredient) : IngredientNutritionPy :=
  ⟨s.name, s.quantity, s.unit, PyVal.txt s.nutrition_per_100g, PyVal.txt s.total_nutrition⟩

/-- The Redis cache, restricted to the nutrition keys: an association list,
newest entry first (a `setex` on an existing key overwrites, which first-match
lookup over a prepend-list models).  Entries present in the list stand for
unexpired entries: the claims below only concern requests inside the 24-hour
TTL window, so expiry never removes an entry during the runs considered. -/
abbrev Cache := List (String × StoredIngredient)

/-- Cache lookup (`_get_from_cache`, lines 606-614). -/
def cacheGet (c : Cache) (k : String) : Option StoredIngredient :=
  (c.find? (fun p => p.1 == k)).map (fun p => p.2)

/-- The cache key of line 133, `f"nutrition:{ingredient_name}:{quantity}:{unit}"`.
(`toString` on `ℚ` stands for Python float formatting; all that matters below
is that the key is a function of the `(name, quantity, unit)` triple.) -/
def cacheKey (ingredient_name : String) (quantity : ℚ) (unit : String) : String :=
  "nutrition:" ++ ingredient_name ++ ":" ++ toString quantity ++ ":" ++ unit

/-- Everything `get_ingredient_nutrition` produces in the model: the returned
value, the cache after the call, whether the source cascade ran (false on a
cache hit), and the cascade call trace. -/
structure LookupResult where
  value : IngredientNutritionPy
  cache : Cache
  cascade_invoked : Bool
  trace : CascadeTrace
  deriving Repr

/-- Model of `get_ingredient_nutrition` (lines 128-174): check the cache and return
the reconstructed value on a hit; otherwise run the source cascade, scale to
the requested quantity, build the result, and cache its serialized form. -/
def get_ingredient_nutrition (cfg : EngineConfig) (env : ProviderEnv) (cache : Cache)
    (ingredient_name : String) (quantity : ℚ) (unit : String) : LookupResult :=
  let key := cacheKey ingredient_name quantity unit
  match cacheGet cache key with
  | some stored => ⟨deserializeResolution stored, cache, false, ⟨false, false, false, false⟩⟩
  | none =>
      let out := get_nutrition_data cfg env ingredient_name
      let total := convert_nutrition_to_quantity out.data quantity unit ingredient_name
      let result : IngredientNutrition := ⟨ingredient_name, quantity, unit, out.data, total⟩
      ⟨toPy result, (key, serializeResolution result) :: cache, true, out.trace⟩

/-- One element of the `ingredients` argument of `calculate_recipe_nutrition`
(line 76): a dict with a mandatory `"name"` and optional `"quantity"` /
`"unit"` entries (lines 91-93 read them with `.get` defaults 1 and "cup"). -/
structure Ingredient where
  name : String
  quantity : Option ℚ
  unit : Option String
  deriving DecidableEq, Repr

/-- The loop state of `calculate_recipe_nutrition` (lines 78-85): the
breakdown list, the running total record, the confidence scores, the cache,
plus an instrumentation counter `field_writes` that counts every in-place
assignment to a field of the already-constructed `total_nutrition` record
(the nine `+=` statements at lines 99-107 and the assignment at line 118). -/
structure AggState where
  ingredient_nutritions : List IngredientNutritionPy
  total : NutritionData
  confidence_scores : List ℚ
  cache : Cache
  field_writes : ℕ
  deriving Repr

/-- One iteration of the loop at lines 87-115, for one ingredient.

The `raises` argument marks the ingredients for which the call to
`get_ingredient_nutrition` raises an unexpected exception (the premise of the
spec's error-handling clause; in the source any such exception lands in the
`except` at line 111).  The `except` branch constructs
`_estimate_nutrition_fallback(...)` into a local that is never read again
(line 114) and appends the literal 0.3 to the confidence scores (line 115);
nothing is appended to the breakdown and nothing is added to the total.

When `get_ingredient_nutrition` returns normally, the result is appended to
the breakdown (line 96) and then the nine `+=` statements read
`.total_nutrition.<field>`: if the value came from the cache those fields are
strings, the first attribute access raises `AttributeError`, and control also
lands in the `except` branch — after the append, before any `+=`. -/
def aggStep (cfg : EngineConfig) (env : ProviderEnv) (raises : Ingredient → Bool)
    (st : AggState) (ingredient : Ingredient) : AggState :=
  if raises ingredient then
    let fallback_nutrition := estimate_nutrition_fallback ingredient.name
    let _ := fallback_nutrition
    { st with confidence_scores := st.confidence_scores ++ [0.3] }
  else
    let r := get_ingredient_nutrition cfg env st.cache ingredient.name
      (ingredient.quantity.getD 1) (ingredient.unit.getD "cup")
    let st1 := { st with
      ingredient_nutritions := st.ingredient_nutritions ++ [r.value],
      cache := r.cache }
    match r.value.total_nutrition with
    | PyVal.nd d =>
        { st1 with
          total := { st1.total with
            calories := st1.total.calories + d.calories,
            protein := st1.total.protein + d.protein,
            carbohydrates := st1.total.carbohydrates + d.carbohydrates,
            fat := st1.total.fat + d.fat,
            fiber := st1.total.fiber + d.fiber,
            sugar := st1.total.sugar + d.sugar,
            sodium := st1.total.sodium + d.sodium,
            cholesterol := st1.total.cholesterol + d.cholesterol,
            saturated_fat := st1.total.saturated_fat + d.saturated_fat },
          confidence_scores := st1.confidence_scores ++ [d.confidence],
          field_writes := st1.field_writes + 9 }
    | PyVal.txt _ =>
        let fallback_nutrition := estimate_nutrition_fallback ingredient.name
        let _ := fallback_nutrition
        { st1 with confidence_scores := st1.confidence_scores ++ [0.3] }

/-- What `calculate_recipe_nutrition` returns (lines 120-126), plus the model
instrumentation (`field_writes`) and the final cache. -/
structure RecipeNutritionResult where
  total_nutrition : NutritionData
  ingredient_nutritions : List IngredientNutritionPy
  confidence_score : ℚ
  field_writes : ℕ
  cache : Cache
  deriving Repr

/-- Model of `np.mean` on a nonempty list. -/
def pyMean (l : List ℚ) : ℚ := l.sum / (l.length : ℚ)

/-- Model of `calculate_recipe_nutrition` (lines 73-126): start from the all-zero
total record (lines 79-83), loop over the ingredients, then set
`total_nutrition.confidence` to the mean of the scores — 0.0 when the score
list is empty (line 118) — which is one more in-place field write. -/
def calculate_recipe_nutrition (cfg : EngineConfig) (env : ProviderEnv)
    (raises : Ingredient → Bool) (cache : Cache) (ingredients : List Ingredient) :
    RecipeNutritionResult :=
  let init : AggState :=
    ⟨[], ⟨0, 0, 0, 0, 0, 0, 0, 0, 0, "calculated", 0⟩, [], cache, 0⟩
  let st := ingredients.foldl (aggStep cfg env raises) init
  let conf := if st.confidence_scores.isEmpty then 0 else pyMean st.confidence_scores
  ⟨{ st.total with confidence := conf }, st.ingredient_nutritions, conf,
    st.field_writes + 1, st.cache⟩

/-- The cache key the aggregator uses for one ingredient dict (lines 90-93
feed `name`, `quantity` with default 1, `unit` with default "cup" into
`get_ingredient_nutrition`, which builds the key at line 133). -/
def ingKey (i : Ingredient) : String :=
  cacheKey i.name (i.quantity.getD 1) (i.unit.getD "cup")

/-- The per-100g record the cascade resolves for one ingredient dict. -/
def resolvedPer100 (cfg : EngineConfig) (env : ProviderEnv) (i : Ingredient) : NutritionData :=
  (get_nutrition_data cfg env i.name).data

/-- The scaled record for one ingredient dict on the fresh (cache-miss) path. -/
def resolvedScaled (cfg : EngineConfig) (env : ProviderEnv) (i : Ingredient) : NutritionData :=
  convert_nutrition_to_quantity (resolvedPer100 cfg env i) (i.quantity.getD 1)
    (i.unit.getD "cup") i.name

/-- The full resolution for one ingredient dict on the fresh path. -/
def resolvedFresh (cfg : EngineConfig) (env : ProviderEnv) (i : Ingredient) : IngredientNutrition :=
  ⟨i.name, i.quantity.getD 1, i.unit.getD "cup", resolvedPer100 cfg env i,
    resolvedScaled cfg env i⟩

/-! Concrete fixtures used by the witnesses and counterexamples below. -/

/-- Engine with no API keys configured and no ML model loaded. -/
def cfg0 : EngineConfig := ⟨false, false, false, false⟩

/-- An external world in which every provider fails and the model is absent. -/
def env0 : ProviderEnv :=
  ⟨fun _ => none, fun _ => none, fun _ => none, fun _ => [], fun _ => false⟩

/-- Engine with all three API keys configured, no ML model. -/
def cfgAll : EngineConfig := ⟨true, true, true, false⟩

/-- A provider record under the acceptance threshold (confidence 0.5). -/
def rLow : NutritionData := ⟨10, 1, 1, 1, 0, 0, 0, 0, 0, "api_ninjas", 0.5⟩

/-- A provider record above the acceptance threshold (confidence 0.9). -/
def rHigh : NutritionData := ⟨200, 20, 2, 3, 0, 0, 40, 10, 1, "spoonacular", 0.9⟩

/-- A provider record with the fixed API Ninjas confidence 0.85. -/
def rNinjas : NutritionData := ⟨120, 9, 4, 6, 1, 2, 30, 12, 2, "api_ninjas", 0.85⟩

/-- World for the cascade counterexample: the first provider answers with the
sub-threshold record, the second would answer with the high-confidence one,
the third fails. -/
def envLowHigh : ProviderEnv :=
  ⟨fun _ => some rLow, fun _ => some rHigh, fun _ => none, fun _ => [], fun _ => false⟩

/-- World in which the first provider answers with its usual confidence 0.85
and the others fail. -/
def envNinjas : ProviderEnv :=
  ⟨fun _ => some rNinjas, fun _ => none, fun _ => none, fun _ => [], fun _ => false⟩

/-- Engine with the Spoonacular and USDA keys configured but not the API
Ninjas key. -/
def cfgSpoon : EngineConfig := ⟨false, true, true, false⟩

/-- World in which Spoonacular answers with the high-confidence record and
the other providers fail. -/
def envSpoon : ProviderEnv :=
  ⟨fun _ => none, fun _ => some rHigh, fun _ => none, fun _ => [], fun _ => false⟩

/-- Engine with only the API Ninjas key configured. -/
def cfgNinjas : EngineConfig := ⟨true, false, false, false⟩

/-- World for the confidence-mean witness: the provider resolves ingredient
"a" at confidence 0.9 and fails on everything else. -/
def envMean : ProviderEnv :=
  ⟨fun n => if n == "a" then some rHigh else none, fun _ => none, fun _ => none,
    fun _ => [], fun _ => false⟩

/-- Two-ingredient recipe resolving at confidences 0.9 and 0.3. -/
def recipeMean : List Ingredient := [⟨"a", some 1, some "g"⟩, ⟨"b", some 1, some "g"⟩]

/-- Recipe in which resolving the second ingredient raises unexpectedly. -/
def recipeRaise : List Ingredient :=
  [⟨"olive oil", some 1, some "tbsp"⟩, ⟨"eggs", some 2, some "cup"⟩]

/-- Exception oracle: resolving "eggs" raises an unexpected exception. -/
def raisesEggs (i : Ingredient) : Bool := i.name == "eggs"

/-- No ingredient raises. -/
def raisesNone (_i : Ingredient) : Bool := false

/-- One-ingredient recipe used to count in-place writes. -/
def recipeOne : List Ingredient := [⟨"olive oil", some 1, some "tbsp"⟩]

/-- A per-100g record with 100 kcal, used for the quantity-validation
counterexample. -/
def rHundred : NutritionData := ⟨100, 0, 0, 0, 0, 0, 0, 0, 0, "estimated", 0.5⟩

theorem get_ingredient_nutrition_miss (cfg : EngineConfig) (env : ProviderEnv) (cache : Cache)
    (name : String) (q : ℚ) (unit : String)
    (h : cacheGet cache (cacheKey name q unit) = none) :
    get_ingredient_nutrition cfg env cache name q unit =
      ⟨toPy ⟨name, q, unit, (get_nutrition_data cfg env name).data,
          convert_nutrition_to_quantity (get_nutrition_data cfg env name).data q unit name⟩,
        (cacheKey name q unit,
          serializeResolution ⟨name, q, unit, (get_nutrition_data cfg env name).data,
            convert_nutrition_to_quantity (get_nutrition_data cfg env name).data q unit name⟩)
          :: cache,
        true, (get_nutrition_data cfg env name).trace⟩ := by
  simp only [get_ingredient_nutrition, h]

theorem get_ingredient_nutrition_hit (cfg : EngineConfig) (env : ProviderEnv) (cache : Cache)
    (name : String) (q : ℚ) (unit : String) (s : StoredIngredient)
    (h : cacheGet cache (cacheKey name q unit) = some s) :
    get_ingredient_nutrition cfg env cache name q unit =
      ⟨deserializeResolution s, cache, false, ⟨false, false, false, false⟩⟩ := by
  simp only [get_ingredient_nutrition, h]

theorem aggStep_raises (cfg : EngineConfig) (env : ProviderEnv) (raises : Ingredient → Bool)
    (st : AggState) (i : Ingredient) (h : raises i = true) :
    aggStep cfg env raises st i =
      { st with confidence_scores := st.confidence_scores ++ [0.3] } := by
  simp only [aggStep, h, if_true]

theorem aggStep_fresh (cfg : EngineConfig) (env : ProviderEnv) (raises : Ingredient → Bool)
    (st : AggState) (i : Ingredient) (hr : raises i = false)
    (hm : cacheGet st.cache (ingKey i) = none) :
    aggStep cfg env raises st i =
      { ingredient_nutritions := st.ingredient_nutritions ++ [toPy (resolvedFresh cfg env i)],
        total := { st.total with
          calories := st.total.calories + (resolvedScaled cfg env i).calories,
          protein := st.total.protein + (resolvedScaled cfg env i).protein,
          carbohydrates := st.total.carbohydrates + (resolvedScaled cfg env i).carbohydrates,
          fat := st.total.fat + (resolvedScaled cfg env i).fat,
          fiber := st.total.fiber + (resolvedScaled cfg env i).fiber,
          sugar := st.total.sugar + (resolvedScaled cfg env i).sugar,
          sodium := st.total.sodium + (resolvedScaled cfg env i).sodium,
          cholesterol := st.total.cholesterol + (resolvedScaled cfg env i).cholesterol,
          saturated_fat := st.total.saturated_fat + (resolvedScaled cfg env i).saturated_fat },
        confidence_scores := st.confidence_scores ++ [(resolvedScaled cfg env i).confidence],
        cache := (ingKey i, serializeResolution (resolvedFresh cfg env i)) :: st.cache,
        field_writes := st.field_writes + 9 } := by
  rw [ingKey] at hm
  simp only [aggStep, hr, Bool.false_eq_true, if_false,
    get_ingredient_nutrition_miss cfg env st.cache i.name (i.quantity.getD 1)
      (i.unit.getD "cup") hm, toPy]
  rfl

theorem aggStep_hit (cfg : EngineConfig) (env : ProviderEnv) (raises : Ingredient → Bool)
    (st : AggState) (i : Ingredient) (s : StoredIngredient) (hr : raises i = false)
    (hm : cacheGet st.cache (ingKey i) = some s) :
    aggStep cfg env raises st i =
      { st with
        ingredient_nutritions := st.ingredient_nutritions ++ [deserializeResolution s],
        confidence_scores := st.confidence_scores ++ [0.3] } := by
  rw [ingKey] at hm
  simp only [aggStep, hr, Bool.false_eq_true, if_false,
    get_ingredient_nutrition_hit cfg env st.cache i.name (i.quantity.getD 1)
      (i.unit.getD "cup") s hm, deserializeResolution]

theorem cacheGet_nil (k : String) : cacheGet [] k = none := rfl

theorem cacheGet_cons (k k2 : String) (v : StoredIngredient) (c : Cache) :
    cacheGet ((k, v) :: c) k2 = if k == k2 then some v else cacheGet c k2 := by
  simp only [cacheGet, List.find?_cons]
  by_cases h : k == k2
  · simp [h]
  · simp only [h] at *
    simp [h]

/-- Effect of the aggregation loop on a recipe in which no ingredient raises
and every ingredient misses the cache: every step takes the fresh path, so
the breakdown collects the resolutions in order, the nine totals accumulate
the scaled fields, the scores collect the scaled confidences, and nine
in-place writes to the total record happen per ingredient. -/
theorem foldl_aggStep_fresh (cfg : EngineConfig) (env : ProviderEnv)
    (raises : Ingredient → Bool) :
    ∀ (ings : List Ingredient) (st : AggState),
    (∀ i ∈ ings, raises i = false) →
    (∀ i ∈ ings, cacheGet st.cache (ingKey i) = none) →
    (ings.map ingKey).Nodup →
    (ings.foldl (aggStep cfg env raises) st).ingredient_nutritions =
        st.ingredient_nutritions ++ ings.map (fun i => toPy (resolvedFresh cfg env i)) ∧
    (ings.foldl (aggStep cfg env raises) st).total.calories =
        st.total.calories + (ings.map (fun i => (resolvedScaled cfg env i).calories)).sum ∧
    (ings.foldl (aggStep cfg env raises) st).total.protein =
        st.total.protein + (ings.map (fun i => (resolvedScaled cfg env i).protein)).sum ∧
    (ings.foldl (aggStep cfg env raises) st).total.carbohydrates =
        st.total.carbohydrates +
          (ings.map (fun i => (resolvedScaled cfg env i).carbohydrates)).sum ∧
    (ings.foldl (aggStep cfg env raises) st).total.fat =
        st.total.fat + (ings.map (fun i => (resolvedScaled cfg env i).fat)).sum ∧
    (ings.foldl (aggStep cfg env raises) st).total.fiber =
        st.total.fiber + (ings.map (fun i => (resolvedScaled cfg env i).fiber)).sum ∧
    (ings.foldl (aggStep cfg env raises) st).total.sugar =
        st.total.sugar + (ings.map (fun i => (resolvedScaled cfg env i).sugar)).sum ∧
    (ings.foldl (aggStep cfg env raises) st).total.sodium =
        st.total.sodium + (ings.map (fun i => (resolvedScaled cfg env i).sodium)).sum ∧
    (ings.foldl (aggStep cfg env raises) st).total.cholesterol =
        st.total.cholesterol + (ings.map (fun i => (resolvedScaled cfg env i).cholesterol)).sum ∧
    (ings.foldl (aggStep cfg env raises) st).total.saturated_fat =
        st.total.saturated_fat +
          (ings.map (fun i => (resolvedScaled cfg env i).saturated_fat)).sum ∧
    (ings.foldl (aggStep cfg env raises) st).total.source = st.total.source ∧
    (ings.foldl (aggStep cfg env raises) st).total.confidence = st.total.confidence ∧
    (ings.foldl (aggStep cfg env raises) st).confidence_scores =
        st.confidence_scores ++ ings.map (fun i => (resolvedScaled cfg env i).confidence) ∧
    (ings.foldl (aggStep cfg env raises) st).field_writes =
        st.field_writes + 9 * ings.length := by
  intro ings
  induction ings with
  | nil => intro st _ _ _; simp
  | cons i ings ih =>
      intro st h1 h2 hnd
      have hr : raises i = false := h1 i (List.mem_cons_self i ings)
      have hm : cacheGet st.cache (ingKey i) = none := h2 i (List.mem_cons_self i ings)
      have step := aggStep_fresh cfg env raises st i hr hm
      have h1' : ∀ j ∈ ings, raises j = false := fun j hj => h1 j (List.mem_cons_of_mem i hj)
      have hkey : ingKey i ∉ ings.map ingKey := by
        have := hnd
        simp only [List.map_cons, List.nodup_cons] at this
        exact this.1
      have h2' : ∀ j ∈ ings,
          cacheGet (aggStep cfg env raises st i).cache (ingKey j) = none := by
        intro j hj
        rw [step]
        show cacheGet ((ingKey i, serializeResolution (resolvedFresh cfg env i)) :: st.cache)
          (ingKey j) = none
        rw [cacheGet_cons]
        have hne : (ingKey i == ingKey j) = false := by
          rw [beq_eq_false_iff_ne]
          intro hc
          exact hkey (hc ▸ List.mem_map_of_mem ingKey hj)
        rw [hne]
        simp only [Bool.false_eq_true, if_false]
        exact h2 j (List.mem_cons_of_mem i hj)
      have hnd' : (ings.map ingKey).Nodup := by
        simp only [List.map_cons, List.nodup_cons] at hnd
        exact hnd.2
      obtain ⟨e1, e2, e3, e4, e5, e6, e7, e8, e9, e10, e11, e12, e13, e14⟩ :=
        ih (aggStep cfg env raises st i) h1' h2' hnd'
      refine ⟨?_, ?_, ?_, ?_, ?_, ?_, ?_, ?_, ?_, ?_, ?_, ?_, ?_, ?_⟩ <;>
        rw [List.foldl_cons] <;>
        simp only [e1, e2, e3, e4, e5, e6, e7, e8, e9, e10, e11, e12, e13, e14] <;>
        simp only [step] <;>
        simp only [List.map_cons, List.sum_cons, List.length_cons, List.append_assoc,
          List.singleton_append] <;>
        first
          | rfl
          | ring
          | omega


/-- Auxiliary: every entry of the static unit table is positive. -/
theorem unit_conversions_pos : ∀ p ∈ unit_conversions, 0 < p.2 := by
  intro p hp
  fin_cases hp <;> norm_num

/-- Auxiliary: every entry of the cup-weight table is positive. -/
theorem cup_weights_pos : ∀ p ∈ cup_weights, 0 < p.2 := by
  intro p hp
  fin_cases hp <;> norm_num

/-- Auxiliary: the cup weight of any ingredient is positive. -/
theorem estimate_cup_weight_pos (ingredient_name : String) :
    0 < estimate_cup_weight ingredient_name := by
  rw [estimate_cup_weight]
  cases h : cup_weights.find? (fun p => pyContains p.1 (pyLower ingredient_name)) with
  | none => norm_num
  | some p => exact cup_weights_pos p (List.mem_of_find?_eq_some h)

/-- Auxiliary: grams-per-unit is positive for every unit and ingredient. -/
theorem grams_per_unit_pos (unit ingredient_name : String) :
    0 < grams_per_unit unit ingredient_name := by
  rw [grams_per_unit]
  split
  · exact estimate_cup_weight_pos ingredient_name
  · cases h : lookupAssoc unit_conversions (pyLower unit) with
    | none => simp [h]
    | some g =>
        show 0 < g
        rw [lookupAssoc] at h
        cases hf : unit_conversions.find? (fun p => p.1 == pyLower unit) with
        | none => rw [hf] at h; simp at h
        | some p =>
            rw [hf] at h
            have hg : p.2 = g := by simpa using h
            rw [← hg]
            exact unit_conversions_pos p (List.mem_of_find?_eq_some hf)

/-- C5: every one of the nine numeric fields of the scaled record equals the
corresponding per-100g field multiplied by `grams_requested / 100` (where
`grams_requested = quantity * grams_per_unit`), `source` and `confidence` are
copied unchanged, and doubling the quantity exactly doubles every one of the
nine numeric fields. -/
theorem C5_scaling_linearity (n : NutritionData) (q : ℚ) (unit ingredient_name : String) :
    (convert_nutrition_to_quantity n q unit ingredient_name).calories =
        n.calories * (q * grams_per_unit unit ingredient_name / 100) ∧
    (convert_nutrition_to_quantity n q unit ingredient_name).protein =
        n.protein * (q * grams_per_unit unit ingredient_name / 100) ∧
    (convert_nutrition_to_quantity n q unit ingredient_name).carbohydrates =
        n.carbohydrates * (q * grams_per_unit unit ingredient_name / 100) ∧
    (convert_nutrition_to_quantity n q unit ingredient_name).fat =
        n.fat * (q * grams_per_unit unit ingredient_name / 100) ∧
    (convert_nutrition_to_quantity n q unit ingredient_name).fiber =
        n.fiber * (q * grams_per_unit unit ingredient_name / 100) ∧
    (convert_nutrition_to_quantity n q unit ingredient_name).sugar =
        n.sugar * (q * grams_per_unit unit ingredient_name / 100) ∧
    (convert_nutrition_to_quantity n q unit ingredient_name).sodium =
        n.sodium * (q * grams_per_unit unit ingredient_name / 100) ∧
    (convert_nutrition_to_quantity n q unit ingredient_name).cholesterol =
        n.cholesterol * (q * grams_per_unit unit ingredient_name / 100) ∧
    (convert_nutrition_to_quantity n q unit ingredient_name).saturated_fat =
        n.saturated_fat * (q * grams_per_unit unit ingredient_name / 100) ∧
    (convert_nutrition_to_quantity n q unit ingredient_name).source = n.source ∧
    (convert_nutrition_to_quantity n q unit ingredient_name).confidence = n.confidence ∧
    (convert_nutrition_to_quantity n (2 * q) unit ingredient_name).calories =
        2 * (convert_nutrition_to_quantity n q unit ingredient_name).calories ∧
    (convert_nutrition_to_quantity n (2 * q) unit ingredient_name).protein =
        2 * (convert_nutrition_to_quantity n q unit ingredient_name).protein ∧
    (convert_nutrition_to_quantity n (2 * q) unit ingredient_name).carbohydrates =
        2 * (convert_nutrition_to_quantity n q unit ingredient_name).carbohydrates ∧
    (convert_nutrition_to_quantity n (2 * q) unit ingredient_name).fat =
        2 * (convert_nutrition_to_quantity n q unit ingredient_name).fat ∧
    (convert_nutrition_to_quantity n (2 * q) unit ingredient_name).fiber =
        2 * (convert_nutrition_to_quantity n q unit ingredient_name).fiber ∧
    (convert_nutrition_to_quantity n (2 * q) unit ingredient_name).sugar =
        2 * (convert_nutrition_to_quantity n q unit ingredient_name).sugar ∧
    (convert_nutrition_to_quantity n (2 * q) unit ingredient_name).sodium =
        2 * (convert_nutrition_to_quantity n q unit ingredient_name).sodium ∧
    (convert_nutrition_to_quantity n (2 * q) unit ingredient_name).cholesterol =
        2 * (convert_nutrition_to_quantity n q unit ingredient_name).cholesterol ∧
    (convert_nutrition_to_quantity n (2 * q) unit ingredient_name).saturated_fat =
        2 * (convert_nutrition_to_quantity n q unit ingredient_name).saturated_fat := by
  refine ⟨?_, ?_, ?_, ?_, ?_, ?_, ?_, ?_, ?_, ?_, ?_, ?_, ?_, ?_, ?_, ?_, ?_, ?_, ?_, ?_⟩ <;>
    simp only [convert_nutrition_to_quantity] <;> ring

/-- C6: on the empty ingredient list the aggregate total has all nine numeric
fields equal to zero and confidence 0.0, whatever the configuration, world,
exception oracle and starting cache. -/
theorem C6_empty_recipe (cfg : EngineConfig) (env : ProviderEnv)
    (raises : Ingredient → Bool) (cache : Cache) :
    (calculate_recipe_nutrition cfg env raises cache []).total_nutrition.calories = 0 ∧
    (calculate_recipe_nutrition cfg env raises cache []).total_nutrition.protein = 0 ∧
    (calculate_recipe_nutrition cfg env raises cache []).total_nutrition.carbohydrates = 0 ∧
    (calculate_recipe_nutrition cfg env raises cache []).total_nutrition.fat = 0 ∧
    (calculate_recipe_nutrition cfg env raises cache []).total_nutrition.fiber = 0 ∧
    (calculate_recipe_nutrition cfg env raises cache []).total_nutrition.sugar = 0 ∧
    (calculate_recipe_nutrition cfg env raises cache []).total_nutrition.sodium = 0 ∧
    (calculate_recipe_nutrition cfg env raises cache []).total_nutrition.cholesterol = 0 ∧
    (calculate_recipe_nutrition cfg env raises cache []).total_nutrition.saturated_fat = 0 ∧
    (calculate_recipe_nutrition cfg env raises cache []).total_nutrition.confidence = 0 ∧
    (calculate_recipe_nutrition cfg env raises cache []).confidence_score = 0 := by
  exact ⟨rfl, rfl, rfl, rfl, rfl, rfl, rfl, rfl, rfl, rfl, rfl⟩

/-- C9 counterexample: the converter performs no rejection and no clamping of
a non-positive quantity — quantity −1 of a 100 kcal/100g record in grams is
scaled straight through the linear formula and yields −1 kcal, a result
computed from the non-positive quantity. -/
theorem C9_cex_negative_quantity_flows_through :
    (convert_nutrition_to_quantity rHundred (-1) "g" "x").calories = -1 ∧
    (convert_nutrition_to_quantity rHundred (-1) "g" "x").calories < 0 := by
  have hg : grams_per_unit "g" "x" = 1 := rfl
  constructor <;>
    · simp only [convert_nutrition_to_quantity, hg, rHundred]
      norm_num

/-- C9 amended: for a non-positive quantity the converter still returns the
linear scaling by that quantity (no validation), so a record with
non-negative calories scales to non-positive calories. -/
theorem C9_nonpositive_quantity_passthrough (n : NutritionData) (q : ℚ)
    (unit ingredient_name : String) (hq : q ≤ 0) (hn : 0 ≤ n.calories) :
    (convert_nutrition_to_quantity n q unit ingredient_name).calories =
        n.calories * (q * grams_per_unit unit ingredient_name / 100) ∧
    (convert_nutrition_to_quantity n q unit ingredient_name).calories ≤ 0 := by
  have hgpos := grams_per_unit_pos unit ingredient_name
  constructor
  · simp only [convert_nutrition_to_quantity]
  · simp only [convert_nutrition_to_quantity]
    nlinarith [mul_nonneg hn (mul_nonneg (le_of_lt hgpos) (le_of_lt hgpos))]

/-- Witness for the amended C9 at quantity −2 lb of a 100 kcal record. -/
theorem C9_nonpositive_quantity_passthrough_w :
    (convert_nutrition_to_quantity rHundred (-2) "lb" "x").calories =
        rHundred.calories * ((-2) * grams_per_unit "lb" "x" / 100) ∧
    (convert_nutrition_to_quantity rHundred (-2) "lb" "x").calories ≤ 0 :=
  C9_nonpositive_quantity_passthrough rHundred (-2) "lb" "x" (by norm_num)
    (by norm_num [rHundred])

/-- C10: "olive oil", quantity 1, unit "tbsp", with no provider configured
and no ML model: the heuristic resolves the oils profile (884 kcal, 0 g
protein, 0 g carbohydrates, 100 g fat per 100 g, confidence 0.5), one tbsp
is 15 g, and the scaled record has 132.6 kcal, 15 g fat and confidence 0.5. -/
theorem C10_olive_oil_scenario :
    (get_nutrition_data cfg0 env0 "olive oil").data =
        ⟨884, 0, 0, 100, 0, 0, 0, 0, 15, "estimated", 0.5⟩ ∧
    (get_nutrition_data cfg0 env0 "olive oil").trace.estimator_called = true ∧
    grams_per_unit "tbsp" "olive oil" = 15 ∧
    (get_ingredient_nutrition cfg0 env0 [] "olive oil" 1 "tbsp").value.nutrition_per_100g =
        PyVal.nd ⟨884, 0, 0, 100, 0, 0, 0, 0, 15, "estimated", 0.5⟩ ∧
    (get_ingredient_nutrition cfg0 env0 [] "olive oil" 1 "tbsp").value.total_nutrition =
        PyVal.nd ⟨132.6, 0, 0, 15, 0, 0, 0, 0, 2.25, "estimated", 0.5⟩ := by
  refine ⟨rfl, rfl, rfl, rfl, ?_⟩
  have h : (get_ingredient_nutrition cfg0 env0 [] "olive oil" 1 "tbsp").value.total_nutrition =
      PyVal.nd (convert_nutrition_to_quantity
        (⟨884, 0, 0, 100, 0, 0, 0, 0, 15, "estimated", 0.5⟩ : NutritionData)
        1 "tbsp" "olive oil") := rfl
  rw [h]
  have hg : grams_per_unit "tbsp" "olive oil" = 15 := rfl
  simp only [convert_nutrition_to_quantity, hg, PyVal.nd.injEq, NutritionData.mk.injEq]
  norm_num

/-- C7: if the highest-priority configured provider returns a record with
confidence at or above the acceptance threshold 0.7, no lower-priority
provider is invoked during that resolution (and neither is the estimator),
and that record is the result.  One conjunct per possible highest-priority
configured provider. -/
theorem C7_high_confidence_stops_cascade (cfg : EngineConfig) (env : ProviderEnv)
    (ingredient_name : String) (r : NutritionData) :
    (cfg.api_ninjas_key = true → env.api_ninjas ingredient_name = some r →
      confidence_threshold ≤ r.confidence →
      (get_nutrition_data cfg env ingredient_name).trace.spoonacular_called = false ∧
      (get_nutrition_data cfg env ingredient_name).trace.usda_called = false ∧
      (get_nutrition_data cfg env ingredient_name).trace.estimator_called = false ∧
      (get_nutrition_data cfg env ingredient_name).data = r) ∧
    (cfg.api_ninjas_key = false → cfg.spoonacular_api_key = true →
      env.spoonacular ingredient_name = some r → confidence_threshold ≤ r.confidence →
      (get_nutrition_data cfg env ingredient_name).trace.usda_called = false ∧
      (get_nutrition_data cfg env ingredient_name).trace.estimator_called = false ∧
      (get_nutrition_data cfg env ingredient_name).data = r) ∧
    (cfg.api_ninjas_key = false → cfg.spoonacular_api_key = false →
      cfg.usda_api_key = true → env.usda ingredient_name = some r →
      confidence_threshold ≤ r.confidence →
      (get_nutrition_data cfg env ingredient_name).trace.estimator_called = false ∧
      (get_nutrition_data cfg env ingredient_name).data = r) := by
  refine ⟨?_, ?_, ?_⟩
  · intro h1 h2 h3
    have he : get_nutrition_data cfg env ingredient_name =
        if r.confidence < confidence_threshold
        then ⟨estimate_nutrition_ml cfg env ingredient_name, ⟨true, false, false, true⟩⟩
        else ⟨r, ⟨true, false, false, false⟩⟩ := by
      simp [get_nutrition_data, h1, h2]
    rw [he, if_neg (not_lt.mpr h3)]
    exact ⟨rfl, rfl, rfl, rfl⟩
  · intro h1 h1b h2 h3
    have he : get_nutrition_data cfg env ingredient_name =
        if r.confidence < confidence_threshold
        then ⟨estimate_nutrition_ml cfg env ingredient_name, ⟨false, true, false, true⟩⟩
        else ⟨r, ⟨false, true, false, false⟩⟩ := by
      simp [get_nutrition_data, h1, h1b, h2]
    rw [he, if_neg (not_lt.mpr h3)]
    exact ⟨rfl, rfl, rfl⟩
  · intro h1 h1b h1c h2 h3
    have he : get_nutrition_data cfg env ingredient_name =
        if r.confidence < confidence_threshold
        then ⟨estimate_nutrition_ml cfg env ingredient_name, ⟨false, false, true, true⟩⟩
        else ⟨r, ⟨false, false, true, false⟩⟩ := by
      simp [get_nutrition_data, h1, h1b, h1c, h2]
    rw [he, if_neg (not_lt.mpr h3)]
    exact ⟨rfl, rfl⟩

/-- Witness for C7: API Ninjas configured as highest priority answers at its
fixed confidence 0.85 ≥ 0.7, and neither the other providers nor the
estimator run. -/
theorem C7_high_confidence_stops_cascade_w :
    (get_nutrition_data cfgNinjas envNinjas "egg").trace.spoonacular_called = false ∧
    (get_nutrition_data cfgNinjas envNinjas "egg").trace.usda_called = false ∧
    (get_nutrition_data cfgNinjas envNinjas "egg").trace.estimator_called = false ∧
    (get_nutrition_data cfgNinjas envNinjas "egg").data = rNinjas :=
  (C7_high_confidence_stops_cascade cfgNinjas envNinjas "egg" rNinjas).1 rfl rfl
    (by norm_num [confidence_threshold, rNinjas])

/-- C2 counterexample: the first provider returns a record of confidence 0.5
(below the threshold) while the second provider would return one of
confidence 0.9 — yet the second and third providers are never invoked, and
the result is the estimator record, not the sub-threshold candidate and not
anything a lower-priority provider could have contributed.  There is no
candidate keeping and no best-of selection in the code. -/
theorem C2_cex_no_candidate_kept :
    (get_nutrition_data cfgAll envLowHigh "thing").trace.spoonacular_called = false ∧
    (get_nutrition_data cfgAll envLowHigh "thing").trace.usda_called = false ∧
    (get_nutrition_data cfgAll envLowHigh "thing").trace.estimator_called = true ∧
    (get_nutrition_data cfgAll envLowHigh "thing").data =
        estimate_nutrition_heuristic "thing" ∧
    (get_nutrition_data cfgAll envLowHigh "thing").data ≠ rLow ∧
    (get_nutrition_data cfgAll envLowHigh "thing").data ≠ rHigh := by
  have he : get_nutrition_data cfgAll envLowHigh "thing" =
      if rLow.confidence < confidence_threshold
      then ⟨estimate_nutrition_ml cfgAll envLowHigh "thing", ⟨true, false, false, true⟩⟩
      else ⟨rLow, ⟨true, false, false, false⟩⟩ := rfl
  rw [he, if_pos (by norm_num [rLow, confidence_threshold])]
  refine ⟨rfl, rfl, rfl, rfl, ?_, ?_⟩
  · intro hc
    have hs : ("estimated" : String) = "api_ninjas" := by
      have ha : (estimate_nutrition_ml cfgAll envLowHigh "thing").source = "estimated" := rfl
      have hb : rLow.source = "api_ninjas" := rfl
      rw [← ha, ← hb]
      exact congrArg NutritionData.source hc
    exact absurd hs (by decide)
  · intro hc
    have hs : ("estimated" : String) = "spoonacular" := by
      have ha : (estimate_nutrition_ml cfgAll envLowHigh "thing").source = "estimated" := rfl
      have hb : rHigh.source = "spoonacular" := rfl
      rw [← ha, ← hb]
      exact congrArg NutritionData.source hc
    exact absurd hs (by decide)

/-- Auxiliary: a provider step yields nothing when its key is unset or its
helper returned `None`. -/
theorem phase_none {b : Bool} {o : Option NutritionData}
    (h : b = false ∨ o = none) : (if b then o else none) = none := by
  rcases h with h | h <;> simp [h]

/-- C2 amended: a provider that returns a record stops the cascade
immediately and no candidate is ever kept — one conjunct per provider being
the first to return a record, plus one for total failure.  Whichever
configured provider is the first to return a record, no lower-priority
provider is invoked; if that record's confidence is below the threshold the
estimator record replaces it outright and the estimator runs, if not the
record itself is the result and the estimator does not run; when every
configured provider yields nothing the estimator provides the result.  The
four legs are exhaustive, so the estimator runs exactly in the sub-threshold
and total-failure cases. -/
theorem C2_first_record_stops_cascade (cfg : EngineConfig) (env : ProviderEnv)
    (ingredient_name : String) (r : NutritionData) :
    (cfg.api_ninjas_key = true → env.api_ninjas ingredient_name = some r →
      (get_nutrition_data cfg env ingredient_name).trace.spoonacular_called = false ∧
      (get_nutrition_data cfg env ingredient_name).trace.usda_called = false ∧
      (r.confidence < confidence_threshold →
        (get_nutrition_data cfg env ingredient_name).data =
            estimate_nutrition_ml cfg env ingredient_name ∧
        (get_nutrition_data cfg env ingredient_name).trace.estimator_called = true) ∧
      (confidence_threshold ≤ r.confidence →
        (get_nutrition_data cfg env ingredient_name).data = r ∧
        (get_nutrition_data cfg env ingredient_name).trace.estimator_called = false)) ∧
    ((cfg.api_ninjas_key = false ∨ env.api_ninjas ingredient_name = none) →
      cfg.spoonacular_api_key = true → env.spoonacular ingredient_name = some r →
      (get_nutrition_data cfg env ingredient_name).trace.usda_called = false ∧
      (r.confidence < confidence_threshold →
        (get_nutrition_data cfg env ingredient_name).data =
            estimate_nutrition_ml cfg env ingredient_name ∧
        (get_nutrition_data cfg env ingredient_name).trace.estimator_called = true) ∧
      (confidence_threshold ≤ r.confidence →
        (get_nutrition_data cfg env ingredient_name).data = r ∧
        (get_nutrition_data cfg env ingredient_name).trace.estimator_called = false)) ∧
    ((cfg.api_ninjas_key = false ∨ env.api_ninjas ingredient_name = none) →
      (cfg.spoonacular_api_key = false ∨ env.spoonacular ingredient_name = none) →
      cfg.usda_api_key = true → env.usda ingredient_name = some r →
      (r.confidence < confidence_threshold →
        (get_nutrition_data cfg env ingredient_name).data =
            estimate_nutrition_ml cfg env ingredient_name ∧
        (get_nutrition_data cfg env ingredient_name).trace.estimator_called = true) ∧
      (confidence_threshold ≤ r.confidence →
        (get_nutrition_data cfg env ingredient_name).data = r ∧
        (get_nutrition_data cfg env ingredient_name).trace.estimator_called = false)) ∧
    ((cfg.api_ninjas_key = false ∨ env.api_ninjas ingredient_name = none) →
      (cfg.spoonacular_api_key = false ∨ env.spoonacular ingredient_name = none) →
      (cfg.usda_api_key = false ∨ env.usda ingredient_name = none) →
      (get_nutrition_data cfg env ingredient_name).data =
          estimate_nutrition_ml cfg env ingredient_name ∧
      (get_nutrition_data cfg env ingredient_name).trace.estimator_called = true) := by
  refine ⟨?_, ?_, ?_, ?_⟩
  · intro h1 h2
    have he : get_nutrition_data cfg env ingredient_name =
        if r.confidence < confidence_threshold
        then ⟨estimate_nutrition_ml cfg env ingredient_name, ⟨true, false, false, true⟩⟩
        else ⟨r, ⟨true, false, false, false⟩⟩ := by
      simp [get_nutrition_data, h1, h2]
    rw [he]
    by_cases hlt : r.confidence < confidence_threshold
    · rw [if_pos hlt]
      exact ⟨rfl, rfl, fun _ => ⟨rfl, rfl⟩, fun hge => absurd hlt (not_lt.mpr hge)⟩
    · rw [if_neg hlt]
      exact ⟨rfl, rfl, fun hl => absurd hl hlt, fun _ => ⟨rfl, rfl⟩⟩
  · intro hA hS h2
    have hr1 : (if cfg.api_ninjas_key then env.api_ninjas ingredient_name else none) = none :=
      phase_none hA
    have he : get_nutrition_data cfg env ingredient_name =
        if r.confidence < confidence_threshold
        then ⟨estimate_nutrition_ml cfg env ingredient_name,
          ⟨cfg.api_ninjas_key, true, false, true⟩⟩
        else ⟨r, ⟨cfg.api_ninjas_key, true, false, false⟩⟩ := by
      simp [get_nutrition_data, hr1, hS, h2]
    rw [he]
    by_cases hlt : r.confidence < confidence_threshold
    · rw [if_pos hlt]
      exact ⟨rfl, fun _ => ⟨rfl, rfl⟩, fun hge => absurd hlt (not_lt.mpr hge)⟩
    · rw [if_neg hlt]
      exact ⟨rfl, fun hl => absurd hl hlt, fun _ => ⟨rfl, rfl⟩⟩
  · intro hA hB hU h2
    have hr1 : (if cfg.api_ninjas_key then env.api_ninjas ingredient_name else none) = none :=
      phase_none hA
    have hr2 : (if cfg.spoonacular_api_key then env.spoonacular ingredient_name else none)
        = none := phase_none hB
    have he : get_nutrition_data cfg env ingredient_name =
        if r.confidence < confidence_threshold
        then ⟨estimate_nutrition_ml cfg env ingredient_name,
          ⟨cfg.api_ninjas_key, cfg.spoonacular_api_key, true, true⟩⟩
        else ⟨r, ⟨cfg.api_ninjas_key, cfg.spoonacular_api_key, true, false⟩⟩ := by
      simp [get_nutrition_data, hr1, hr2, hU, h2]
    rw [he]
    by_cases hlt : r.confidence < confidence_threshold
    · rw [if_pos hlt]
      exact ⟨fun _ => ⟨rfl, rfl⟩, fun hge => absurd hlt (not_lt.mpr hge)⟩
    · rw [if_neg hlt]
      exact ⟨fun hl => absurd hl hlt, fun _ => ⟨rfl, rfl⟩⟩
  · intro hA hB hC
    have hr1 : (if cfg.api_ninjas_key then env.api_ninjas ingredient_name else none) = none :=
      phase_none hA
    have hr2 : (if cfg.spoonacular_api_key then env.spoonacular ingredient_name else none)
        = none := phase_none hB
    have hr3 : (if cfg.usda_api_key then env.usda ingredient_name else none) = none :=
      phase_none hC
    have he : get_nutrition_data cfg env ingredient_name =
        ⟨estimate_nutrition_ml cfg env ingredient_name,
          ⟨cfg.api_ninjas_key, cfg.spoonacular_api_key, cfg.usda_api_key, true⟩⟩ := by
      simp [get_nutrition_data, hr1, hr2, hr3]
    rw [he]
    exact ⟨rfl, rfl⟩

/-- Witness for the amended C2, exercising three legs: the first provider
returning a sub-threshold record (discarded, estimator replaces it, chain
stopped), Spoonacular as the first responder at confidence 0.9 (accepted, no
USDA call, no estimator), and total failure (estimator provides the
result). -/
theorem C2_first_record_stops_cascade_w :
    (get_nutrition_data cfgAll envLowHigh "basil").trace.spoonacular_called = false ∧
    (get_nutrition_data cfgAll envLowHigh "basil").trace.usda_called = false ∧
    (get_nutrition_data cfgAll envLowHigh "basil").data =
        estimate_nutrition_ml cfgAll envLowHigh "basil" ∧
    (get_nutrition_data cfgAll envLowHigh "basil").trace.estimator_called = true ∧
    (get_nutrition_data cfgSpoon envSpoon "basil").trace.usda_called = false ∧
    (get_nutrition_data cfgSpoon envSpoon "basil").data = rHigh ∧
    (get_nutrition_data cfgSpoon envSpoon "basil").trace.estimator_called = false ∧
    (get_nutrition_data cfg0 env0 "basil").data = estimate_nutrition_ml cfg0 env0 "basil" ∧
    (get_nutrition_data cfg0 env0 "basil").trace.estimator_called = true := by
  have h1 := (C2_first_record_stops_cascade cfgAll envLowHigh "basil" rLow).1 rfl rfl
  have h1sub := h1.2.2.1 (by norm_num [rLow, confidence_threshold])
  have h2 := (C2_first_record_stops_cascade cfgSpoon envSpoon "basil" rHigh).2.1
      (Or.inl rfl) rfl rfl
  have h2acc := h2.2.2 (by norm_num [rHigh, confidence_threshold])
  have h4 := (C2_first_record_stops_cascade cfg0 env0 "basil" rLow).2.2.2
      (Or.inl rfl) (Or.inl rfl) (Or.inl rfl)
  exact ⟨h1.1, h1.2.1, h1sub.1, h1sub.2, h2.1, h2acc.1, h2acc.2, h4.1, h4.2⟩

/-- C1 evaluated at the failing input: in a recipe whose second ingredient
("eggs") raises an unexpected exception during resolution, the loop does
continue (the recipe is not aborted, the result is produced), but contrary to
the claim the failing ingredient's identity does not appear in the breakdown,
its fallback values contribute nothing to the total (the total is exactly the
first ingredient's 132.6 kcal), and the overall mean uses the literal 0.3
appended at line 115 rather than the fallback record's confidence 0.2 — the
record built by `_estimate_nutrition_fallback` (confidence 0.2) is
constructed and then discarded. -/
theorem C1_fallback_discarded_not_substituted :
    (calculate_recipe_nutrition cfg0 env0 raisesEggs [] recipeRaise).ingredient_nutritions.map
        (fun r => r.name) = ["olive oil"] ∧
    (calculate_recipe_nutrition cfg0 env0 raisesEggs [] recipeRaise).total_nutrition.calories
        = 132.6 ∧
    (calculate_recipe_nutrition cfg0 env0 raisesEggs [] recipeRaise).confidence_score = 0.4 ∧
    (estimate_nutrition_fallback "eggs").confidence = 0.2 := by
  refine ⟨rfl, ?_, ?_, rfl⟩
  · have h : (calculate_recipe_nutrition cfg0 env0 raisesEggs []
        recipeRaise).total_nutrition.calories
        = 0 + 884 * (1 * grams_per_unit "tbsp" "olive oil" / 100) := rfl
    rw [h, show grams_per_unit "tbsp" "olive oil" = 15 from rfl]
    norm_num
  · have h : (calculate_recipe_nutrition cfg0 env0 raisesEggs [] recipeRaise).confidence_score
        = pyMean [0.5, 0.3] := rfl
    rw [h]
    norm_num [pyMean, List.sum_cons, List.sum_nil]

/-- C8 counterexample: running the aggregator on a one-ingredient recipe
performs ten in-place field assignments to the already-constructed running
total record (the nine `+=` statements of lines 99-107 and the confidence
assignment of line 118), refuting "never mutated after construction". -/
theorem C8_cex_total_record_mutated :
    (calculate_recipe_nutrition cfg0 env0 raisesNone [] recipeOne).field_writes = 10 ∧
    ¬ (calculate_recipe_nutrition cfg0 env0 raisesNone [] recipeOne).field_writes = 0 := by
  refine ⟨rfl, ?_⟩
  intro hc
  rw [show (calculate_recipe_nutrition cfg0 env0 raisesNone [] recipeOne).field_writes = 10
    from rfl] at hc
  exact absurd hc (by decide)

/-- C8 amended: scaling always builds a fresh record, but the aggregator
mutates its running total in place — exactly 9 field writes per successfully
resolved ingredient plus the final confidence write. -/
theorem C8_write_count (cfg : EngineConfig) (env : ProviderEnv) (raises : Ingredient → Bool)
    (ings : List Ingredient)
    (h1 : ∀ i ∈ ings, raises i = false)
    (h2 : (ings.map ingKey).Nodup) :
    (calculate_recipe_nutrition cfg env raises [] ings).field_writes = 9 * ings.length + 1 := by
  obtain ⟨-, -, -, -, -, -, -, -, -, -, -, -, -, e14⟩ :=
    foldl_aggStep_fresh cfg env raises ings
      ⟨[], ⟨0, 0, 0, 0, 0, 0, 0, 0, 0, "calculated", 0⟩, [], [], 0⟩ h1 (fun i _ => rfl) h2
  show (ings.foldl (aggStep cfg env raises)
      ⟨[], ⟨0, 0, 0, 0, 0, 0, 0, 0, 0, "calculated", 0⟩, [], [], 0⟩).field_writes + 1
      = 9 * ings.length + 1
  rw [e14]
  simp

/-- Witness for the amended C8 on the concrete one-ingredient recipe. -/
theorem C8_write_count_w :
    (calculate_recipe_nutrition cfg0 env0 raisesNone [] recipeOne).field_writes =
      9 * recipeOne.length + 1 :=
  C8_write_count cfg0 env0 raisesNone recipeOne (fun i _ => rfl) (by simp [recipeOne])

/-- C3 evaluated at the failing input: the first call for (butter, 2, tbsp)
runs the cascade and caches; the second call within the TTL window does not
run the cascade (at-most-once holds) but returns a value that is NOT equal to
the first call's value: `json.dumps(..., default=str)` stored the two nested
`NutritionData` dataclasses as their `str(...)` renderings, so the cache-hit
reconstruction carries strings where the fresh result carried records. -/
theorem C3_cache_round_trip_not_faithful :
    (get_ingredient_nutrition cfg0 env0 [] "butter" 2 "tbsp").cascade_invoked = true ∧
    (get_ingredient_nutrition cfg0 env0
      (get_ingredient_nutrition cfg0 env0 [] "butter" 2 "tbsp").cache
      "butter" 2 "tbsp").cascade_invoked = false ∧
    (get_ingredient_nutrition cfg0 env0
      (get_ingredient_nutrition cfg0 env0 [] "butter" 2 "tbsp").cache
      "butter" 2 "tbsp").value.total_nutrition =
      PyVal.txt (strOfNutritionData
        (convert_nutrition_to_quantity (estimate_nutrition_heuristic "butter")
          2 "tbsp" "butter")) ∧
    (get_ingredient_nutrition cfg0 env0
      (get_ingredient_nutrition cfg0 env0 [] "butter" 2 "tbsp").cache
      "butter" 2 "tbsp").value ≠
      (get_ingredient_nutrition cfg0 env0 [] "butter" 2 "tbsp").value := by
  refine ⟨rfl, rfl, rfl, ?_⟩
  intro hc
  have h := congrArg IngredientNutritionPy.total_nutrition hc
  rw [show (get_ingredient_nutrition cfg0 env0
        (get_ingredient_nutrition cfg0 env0 [] "butter" 2 "tbsp").cache
        "butter" 2 "tbsp").value.total_nutrition =
      PyVal.txt (strOfNutritionData
        (convert_nutrition_to_quantity (estimate_nutrition_heuristic "butter")
          2 "tbsp" "butter")) from rfl,
    show (get_ingredient_nutrition cfg0 env0 [] "butter" 2 "tbsp").value.total_nutrition =
      PyVal.nd (convert_nutrition_to_quantity (estimate_nutrition_heuristic "butter")
        2 "tbsp" "butter") from rfl] at h
  exact PyVal.noConfusion h

/-- C4: when every ingredient of a nonempty recipe resolves freshly and
without exception (no raising ingredient, pairwise distinct cache keys,
empty starting cache), each of the nine numeric fields of the aggregate
total equals the sum of the corresponding fields of the per-ingredient
scaled records, and the total's confidence — also returned as the
confidence score — is the unweighted arithmetic mean of the per-ingredient
scaled confidences. -/
theorem C4_additivity_and_unweighted_mean (cfg : EngineConfig) (env : ProviderEnv)
    (raises : Ingredient → Bool) (ings : List Ingredient)
    (h1 : ∀ i ∈ ings, raises i = false)
    (h2 : (ings.map ingKey).Nodup)
    (h3 : ings ≠ []) :
    (calculate_recipe_nutrition cfg env raises [] ings).total_nutrition.calories =
        (ings.map (fun i => (resolvedScaled cfg env i).calories)).sum ∧
    (calculate_recipe_nutrition cfg env raises [] ings).total_nutrition.protein =
        (ings.map (fun i => (resolvedScaled cfg env i).protein)).sum ∧
    (calculate_recipe_nutrition cfg env raises [] ings).total_nutrition.carbohydrates =
        (ings.map (fun i => (resolvedScaled cfg env i).carbohydrates)).sum ∧
    (calculate_recipe_nutrition cfg env raises [] ings).total_nutrition.fat =
        (ings.map (fun i => (resolvedScaled cfg env i).fat)).sum ∧
    (calculate_recipe_nutrition cfg env raises [] ings).total_nutrition.fiber =
        (ings.map (fun i => (resolvedScaled cfg env i).fiber)).sum ∧
    (calculate_recipe_nutrition cfg env raises [] ings).total_nutrition.sugar =
        (ings.map (fun i => (resolvedScaled cfg env i).sugar)).sum ∧
    (calculate_recipe_nutrition cfg env raises [] ings).total_nutrition.sodium =
        (ings.map (fun i => (resolvedScaled cfg env i).sodium)).sum ∧
    (calculate_recipe_nutrition cfg env raises [] ings).total_nutrition.cholesterol =
        (ings.map (fun i => (resolvedScaled cfg env i).cholesterol)).sum ∧
    (calculate_recipe_nutrition cfg env raises [] ings).total_nutrition.saturated_fat =
        (ings.map (fun i => (resolvedScaled cfg env i).saturated_fat)).sum ∧
    (calculate_recipe_nutrition cfg env raises [] ings).total_nutrition.confidence =
        (ings.map (fun i => (resolvedScaled cfg env i).confidence)).sum / (ings.length : ℚ) ∧
    (calculate_recipe_nutrition cfg env raises [] ings).confidence_score =
        (ings.map (fun i => (resolvedScaled cfg env i).confidence)).sum / (ings.length : ℚ) := by
  obtain ⟨e1, e2, e3, e4, e5, e6, e7, e8, e9, e10, e11, e12, e13, e14⟩ :=
    foldl_aggStep_fresh cfg env raises ings
      ⟨[], ⟨0, 0, 0, 0, 0, 0, 0, 0, 0, "calculated", 0⟩, [], [], 0⟩ h1 (fun i _ => rfl) h2
  have hconf : (calculate_recipe_nutrition cfg env raises [] ings).confidence_score =
      (ings.map (fun i => (resolvedScaled cfg env i).confidence)).sum / (ings.length : ℚ) := by
    show (if (ings.foldl (aggStep cfg env raises)
          ⟨[], ⟨0, 0, 0, 0, 0, 0, 0, 0, 0, "calculated", 0⟩, [], [], 0⟩).confidence_scores.isEmpty
        then 0
        else pyMean (ings.foldl (aggStep cfg env raises)
          ⟨[], ⟨0, 0, 0, 0, 0, 0, 0, 0, 0, "calculated", 0⟩, [], [], 0⟩).confidence_scores) =
      (ings.map (fun i => (resolvedScaled cfg env i).confidence)).sum / (ings.length : ℚ)
    rw [e13]
    have hne : (([] : List ℚ) ++
        ings.map (fun i => (resolvedScaled cfg env i).confidence)).isEmpty = false := by
      cases ings with
      | nil => exact absurd rfl h3
      | cons a l => rfl
    rw [hne]
    simp only [Bool.false_eq_true, if_false, pyMean, List.nil_append, List.length_map]
  refine ⟨?_, ?_, ?_, ?_, ?_, ?_, ?_, ?_, ?_, hconf, hconf⟩
  · rw [show (calculate_recipe_nutrition cfg env raises [] ings).total_nutrition.calories =
      (ings.foldl (aggStep cfg env raises)
        ⟨[], ⟨0, 0, 0, 0, 0, 0, 0, 0, 0, "calculated", 0⟩, [], [], 0⟩).total.calories from rfl,
      e2]
    norm_num
  · rw [show (calculate_recipe_nutrition cfg env raises [] ings).total_nutrition.protein =
      (ings.foldl (aggStep cfg env raises)
        ⟨[], ⟨0, 0, 0, 0, 0, 0, 0, 0, 0, "calculated", 0⟩, [], [], 0⟩).total.protein from rfl,
      e3]
    norm_num
  · rw [show (calculate_recipe_nutrition cfg env raises [] ings).total_nutrition.carbohydrates =
      (ings.foldl (aggStep cfg env raises)
        ⟨[], ⟨0, 0, 0, 0, 0, 0, 0, 0, 0, "calculated", 0⟩, [], [], 0⟩).total.carbohydrates
      from rfl, e4]
    norm_num
  · rw [show (calculate_recipe_nutrition cfg env raises [] ings).total_nutrition.fat =
      (ings.foldl (aggStep cfg env raises)
        ⟨[], ⟨0, 0, 0, 0, 0, 0, 0, 0, 0, "calculated", 0⟩, [], [], 0⟩).total.fat from rfl,
      e5]
    norm_num
  · rw [show (calculate_recipe_nutrition cfg env raises [] ings).total_nutrition.fiber =
      (ings.foldl (aggStep cfg env raises)
        ⟨[], ⟨0, 0, 0, 0, 0, 0, 0, 0, 0, "calculated", 0⟩, [], [], 0⟩).total.fiber from rfl,
      e6]
    norm_num
  · rw [show (calculate_recipe_nutrition cfg env raises [] ings).total_nutrition.sugar =
      (ings.foldl (aggStep cfg env raises)
        ⟨[], ⟨0, 0, 0, 0, 0, 0, 0, 0, 0, "calculated", 0⟩, [], [], 0⟩).total.sugar from rfl,
      e7]
    norm_num
  · rw [show (calculate_recipe_nutrition cfg env raises [] ings).total_nutrition.sodium =
      (ings.foldl (aggStep cfg env raises)
        ⟨[], ⟨0, 0, 0, 0, 0, 0, 0, 0, 0, "calculated", 0⟩, [], [], 0⟩).total.sodium from rfl,
      e8]
    norm_num
  · rw [show (calculate_recipe_nutrition cfg env raises [] ings).total_nutrition.cholesterol =
      (ings.foldl (aggStep cfg env raises)
        ⟨[], ⟨0, 0, 0, 0, 0, 0, 0, 0, 0, "calculated", 0⟩, [], [], 0⟩).total.cholesterol
      from rfl, e9]
    norm_num
  · rw [show (calculate_recipe_nutrition cfg env raises [] ings).total_nutrition.saturated_fat =
      (ings.foldl (aggStep cfg env raises)
        ⟨[], ⟨0, 0, 0, 0, 0, 0, 0, 0, 0, "calculated", 0⟩, [], [], 0⟩).total.saturated_fat
      from rfl, e10]
    norm_num

/-- Witness for C4 on the concrete two-ingredient recipe resolving at
confidences 0.9 and 0.3: the unweighted mean is exactly 0.6. -/
theorem C4_additivity_and_unweighted_mean_w :
    (calculate_recipe_nutrition cfgNinjas envMean raisesNone [] recipeMean).total_nutrition.confidence
        = 0.6 ∧
    (calculate_recipe_nutrition cfgNinjas envMean raisesNone [] recipeMean).confidence_score
        = 0.6 := by
  have hga : get_nutrition_data cfgNinjas envMean "a" = ⟨rHigh, ⟨true, false, false, false⟩⟩ := by
    have he : get_nutrition_data cfgNinjas envMean "a" =
        if rHigh.confidence < confidence_threshold
        then ⟨estimate_nutrition_ml cfgNinjas envMean "a", ⟨true, false, false, true⟩⟩
        else ⟨rHigh, ⟨true, false, false, false⟩⟩ := rfl
    rw [he, if_neg (by norm_num [rHigh, confidence_threshold])]
  have hca : (resolvedScaled cfgNinjas envMean ⟨"a", some 1, some "g"⟩).confidence = 0.9 := by
    show (convert_nutrition_to_quantity (get_nutrition_data cfgNinjas envMean "a").data
      1 "g" "a").confidence = 0.9
    rw [hga]
    rfl
  have hcb : (resolvedScaled cfgNinjas envMean ⟨"b", some 1, some "g"⟩).confidence = 0.3 := rfl
  obtain ⟨-, -, -, -, -, -, -, -, -, hconf, hscore⟩ :=
    C4_additivity_and_unweighted_mean cfgNinjas envMean raisesNone recipeMean
      (fun i _ => rfl) (by decide) (by simp [recipeMean])
  have hmap : recipeMean.map (fun i => (resolvedScaled cfgNinjas envMean i).confidence)
      = [0.9, 0.3] := by
    rw [show recipeMean.map (fun i => (resolvedScaled cfgNinjas envMean i).confidence)
        = [(resolvedScaled cfgNinjas envMean ⟨"a", some 1, some "g"⟩).confidence,
           (resolvedScaled cfgNinjas envMean ⟨"b", some 1, some "g"⟩).confidence] from rfl,
      hca, hcb]
  rw [hconf, hscore, hmap, show recipeMean.length = 2 from rfl]
  norm_num [List.sum_cons, List.sum_nil]

end NutritionEngine
